import Mathlib

/-!
Shallow embedding of the FYSC23 powder-XRD analysis program (main.py and
src/data_cleaner.py).

Angles, intensities and regression quantities are modelled as rationals;
the floating-point square root in the lattice-constant formula is modelled
by Real.sqrt.  A Python call that raises an exception is modelled by an
Option-valued function returning none.
-/

namespace PXRD

/-! ### Reflection table: get_allowed_reflections (main.py lines 68-83) -/

/-- The fcc rows of the table in get_allowed_reflections. -/
def fccReflections : List (Int × String) :=
  [(3, "(111)"), (4, "(200)"), (8, "(220)"), (11, "(311)"), (12, "(222)")]

/-- The bcc rows of the table in get_allowed_reflections. -/
def bccReflections : List (Int × String) :=
  [(2, "(110)"), (4, "(200)"), (6, "(211)"), (8, "(220)"), (10, "(310)")]

/-- Python str.lower() for the ASCII structure names used here, written on
the character list so that it evaluates by kernel reduction. -/
def pyLower (s : String) : String :=
  String.mk (s.toList.map Char.toLower)

/-- Embedding of get_allowed_reflections: the argument is lowercased and
compared with the two known structure names; any other name raises
ValueError (the InvalidStructureError of the specification), modelled as
none. -/
def get_allowed_reflections (structureType : String) : Option (List (Int × String)) :=
  let s := pyLower structureType
  if s = "fcc" then some fccReflections
  else if s = "bcc" then some bccReflections
  else none

/-! ### Linear regression: scipy.stats.linregress as used by
perform_regression (main.py lines 85-100) -/

/-- Arithmetic mean of a list of rationals. -/
def mean (l : List ℚ) : ℚ := l.sum / l.length

/-- The fields of the scipy linregress result that perform_regression
reads: slope, intercept, and the square of the correlation coefficient. -/
structure LinFit where
  slope : ℚ
  intercept : ℚ
  r_squared : ℚ
  deriving DecidableEq

/-- Embedding of scipy.stats.linregress restricted to the fields used by
perform_regression.  scipy raises ValueError on empty input and when all x
values are identical while more than one point is given; both are modelled
as none.  The code computes r = ssxy / sqrt(ssxx * ssyy) clipped to
[-1, 1], with r = 0 when ssxx = 0 or ssyy = 0, and then squares it; since
|r| is at most 1 anyway and ssyy = 0 forces ssxy = 0, the square equals
ssxy^2 / (ssxx * ssyy) under the division-by-zero-is-zero convention of ℚ.
With a single data point scipy produces slope = nan (a 0/0); the rational
embedding yields 0 there, a value no theorem below depends on. -/
def linregress (x y : List ℚ) : Option LinFit :=
  if x.length = 0 then none
  else if 1 < x.length ∧ x.all (fun v => v = x.headI) then none
  else
    let xm := mean x
    let ym := mean y
    let ssxy := ((x.zip y).map (fun p => (p.1 - xm) * (p.2 - ym))).sum
    let ssxx := (x.map (fun v => (v - xm) ^ 2)).sum
    let ssyy := (y.map (fun v => (v - ym) ^ 2)).sum
    let slope := ssxy / ssxx
    some ⟨slope, ym - slope * xm, ssxy ^ 2 / (ssxx * ssyy)⟩

/-! ### Regression engine: perform_regression (main.py lines 85-100) -/

/-- Everything perform_regression computes before the lattice constant:
truncation to n = min(len(reflections), len(sin2_theta)) pairs and the
linregress call on the truncated sequences. -/
structure FitCore where
  slope : ℚ
  intercept : ℚ
  r_squared : ℚ
  qUsed : List Int
  sin2Used : List ℚ
  deriving DecidableEq

/-- First part of perform_regression: n_reflections =
min(len(reflections), len(sin2_theta)), Q_theoretical = the first
n_reflections Q values, sin2_theta_used = sin2_theta[:n_reflections], and
the call linregress(Q_theoretical, sin2_theta_used). -/
def perform_regression_core (sin2_theta : List ℚ) (reflections : List (Int × String)) :
    Option FitCore :=
  match linregress
      ((reflections.take (min reflections.length sin2_theta.length)).map (fun r => (r.1 : ℚ)))
      (sin2_theta.take (min reflections.length sin2_theta.length)) with
  | none => none
  | some fit =>
    some ⟨fit.slope, fit.intercept, fit.r_squared,
      (reflections.take (min reflections.length sin2_theta.length)).map Prod.fst,
      sin2_theta.take (min reflections.length sin2_theta.length)⟩

/-- Embedding of the line a = wavelength / (2 * np.sqrt(slope)).  For a
negative slope np.sqrt returns NaN with a RuntimeWarning - it does not
raise - and for slope = 0 the quotient is inf; Real.sqrt of a nonpositive
rational is 0 and the quotient is then 0.  Either way the Python line
completes without an exception. -/
noncomputable def lattice_constant (wavelength slope : ℚ) : Real :=
  (wavelength : Real) / (2 * Real.sqrt (slope : Real))

/-- The full return tuple of perform_regression:
(slope, intercept, r_squared, a, Q_theoretical, sin2_theta_used). -/
structure RegressionResult where
  slope : ℚ
  intercept : ℚ
  r_squared : ℚ
  a : Real
  qUsed : List Int
  sin2Used : List ℚ

/-- Embedding of perform_regression.  The function contains no test on the
sign of the slope: the lattice constant line runs unconditionally on
whatever slope linregress produced. -/
noncomputable def perform_regression (sin2_theta : List ℚ)
    (reflections : List (Int × String)) (wavelength : ℚ) : Option RegressionResult :=
  (perform_regression_core sin2_theta reflections).map fun c =>
    ⟨c.slope, c.intercept, c.r_squared, lattice_constant wavelength c.slope,
      c.qUsed, c.sin2Used⟩

/-! ### Structure selection (main.py lines 151-176) -/

/-- Python max(iterable, key=k): a left-to-right scan replacing the current
best only when the key is strictly greater, so the first maximal element
wins ties; max of an empty iterable raises, modelled as none. -/
def pymax (key : String → ℚ) : List String → Option String
  | [] => none
  | x :: xs => some (xs.foldl (fun best s => if key best < key s then s else best) x)

/-- Embedding of best_structure = max(results, key=lambda s:
results[s]['r_squared']) in main, where the results dict is built in
insertion order fcc, bcc; the key lambda is the lookup of the r_squared of
the named hypothesis. -/
def select_best_structure (rFcc rBcc : ℚ) : Option String :=
  pymax (fun s => if s = "fcc" then rFcc else rBcc) ["fcc", "bcc"]

/-! ### Peak detection: scipy.signal.find_peaks as used by detect_peaks
(main.py lines 57-66) -/

/-- The plateau scan of scipy _local_maxima_1d, as the number of steps the
inner while loop takes: starting from j it advances while j < iMax and x[j]
equals the candidate value v, so the index i_ahead behind the plateau is j
plus this count. -/
def plateauCount (x : List ℚ) (v : ℚ) (iMax : Nat) (j : Nat) : Nat :=
  if h : j < iMax ∧ x.getD j 0 = v then plateauCount x v iMax (j + 1) + 1 else 0
termination_by iMax - j
decreasing_by omega

/-- Main loop of scipy _local_maxima_1d: i runs from 1 while i < iMax
(iMax is the last index); a candidate starts where the trace strictly
rises, its plateau is scanned ahead to
i_ahead = i + 1 + plateauCount .. (i + 1), and it is a local maximum when
the trace strictly falls at i_ahead, in which case the midpoint
(i + (i_ahead - 1)) / 2 is recorded and the scan resumes at i_ahead + 1. -/
def localMaximaLoop (x : List ℚ) (iMax : Nat) (i : Nat) : List Nat :=
  if h : i < iMax then
    if x.getD (i - 1) 0 < x.getD i 0 then
      if x.getD (i + 1 + plateauCount x (x.getD i 0) iMax (i + 1)) 0 < x.getD i 0 then
        (i + (i + 1 + plateauCount x (x.getD i 0) iMax (i + 1) - 1)) / 2 ::
          localMaximaLoop x iMax (i + 1 + plateauCount x (x.getD i 0) iMax (i + 1) + 1)
      else
        localMaximaLoop x iMax (i + 1)
    else
      localMaximaLoop x iMax (i + 1)
  else
    []
termination_by iMax - i
decreasing_by all_goals omega

/-- scipy _local_maxima_1d on a full trace: candidates are the interior
indices 1 .. length - 2. -/
def local_maxima_1d (x : List ℚ) : List Nat :=
  localMaximaLoop x (x.length - 1) 1

/-- Left half of the base search of scipy _peak_prominences with full
window: from index i walk down towards 0 through samples not larger than
the peak value, keeping the running minimum. -/
def leftMinScan (x : List ℚ) (v : ℚ) : Nat → ℚ → ℚ
  | 0, cur => if x.getD 0 0 ≤ v then min cur (x.getD 0 0) else cur
  | i + 1, cur =>
    if x.getD (i + 1) 0 ≤ v then leftMinScan x v i (min cur (x.getD (i + 1) 0))
    else cur

/-- Right half of the base search of scipy _peak_prominences with full
window: from index i walk up towards the last index iMax through samples
not larger than the peak value, keeping the running minimum. -/
def rightMinScan (x : List ℚ) (v : ℚ) (iMax : Nat) (i : Nat) (cur : ℚ) : ℚ :=
  if x.getD i 0 ≤ v then
    if h : i < iMax then rightMinScan x v iMax (i + 1) (min cur (x.getD i 0))
    else min cur (x.getD i 0)
  else cur
termination_by iMax - i
decreasing_by omega

/-- Prominence of the peak at index i (scipy peak_prominences, wlen
unset): the drop from the peak value to the higher of the two flank
minima. -/
def prominenceAt (x : List ℚ) (i : Nat) : ℚ :=
  let v := x.getD i 0
  v - max (leftMinScan x v i v) (rightMinScan x v (x.length - 1) i v)

/-- Embedding of scipy.signal.find_peaks restricted to the two keyword
conditions detect_peaks passes: the local maxima, then the height filter,
then the prominence filter (scipy evaluates height before prominence). -/
def find_peaks (x : List ℚ) (height prominenceMin : ℚ) : List Nat :=
  ((local_maxima_1d x).filter (fun i => height ≤ x.getD i 0)).filter
    (fun i => prominenceMin ≤ prominenceAt x i)

/-- np.max of a list; np.max of an empty array raises ValueError, modelled
as none. -/
def npMax : List ℚ → Option ℚ
  | [] => none
  | v :: vs => some (vs.foldl max v)

/-- Embedding of detect_peaks: the height threshold is np.max(intensity) *
height_frac - raising on an empty scan - then find_peaks, then fancy
indexing of the angle and the intensity arrays by the peak indices. -/
def detect_peaks (two_theta intensity : List ℚ) (height_frac prominenceMin : ℚ) :
    Option (List ℚ × List ℚ) :=
  match npMax intensity with
  | none => none
  | some m =>
    let idx := find_peaks intensity (m * height_frac) prominenceMin
    some (idx.map (fun i => two_theta.getD i 0), idx.map (fun i => intensity.getD i 0))

/-! ### Data cleaner: clean_data (src/data_cleaner.py lines 7-37) -/

/-- The epsilon of the outlier threshold in clean_data. -/
def epsilonClean : ℚ := 1 / 1000000

/-- Insertion of a rational into a sorted list; used for the window
median. -/
def insertSorted (a : ℚ) : List ℚ → List ℚ
  | [] => [a]
  | b :: bs => if a ≤ b then a :: b :: bs else b :: insertSorted a bs

/-- Sorting by repeated insertion; only the sorted order matters for the
median. -/
def sortRat (l : List ℚ) : List ℚ := l.foldr insertSorted []

/-- The median pandas takes over a full window of five samples: the middle
element of the sorted window. -/
def median5 (w : List ℚ) : ℚ := (sortRat w).getD 2 0

/-- The centered window of width five around index i, defined only when it
lies entirely inside the list: pandas rolling(window=5, center=True) with
the default min_periods yields NaN on incomplete windows. -/
def window5 (ys : List ℚ) (i : Nat) : Option (List ℚ) :=
  if 2 ≤ i ∧ i + 2 < ys.length then some ((ys.drop (i - 2)).take 5) else none

/-- The rolling median column of clean_data at row i. -/
def rollingMedian (ys : List ℚ) (i : Nat) : Option ℚ :=
  (window5 ys i).map median5

/-- The rolling MAD column of clean_data at row i: the lambda passed to
rolling.apply is the median of |x - median(x)| over the window. -/
def rollingMad (ys : List ℚ) (i : Nat) : Option ℚ :=
  (window5 ys i).map (fun w => median5 (w.map (fun v => |v - median5 w|)))

/-- The row-keep test of clean_data for row i of the angle-filtered frame:
the deviation |intensity - rolling median| must be at most
3 * (rolling MAD + epsilon).  On an incomplete window both rolling columns
are NaN and the pandas comparison NaN <= ... is False, so the row is
dropped. -/
def keepRow (ys : List ℚ) (i : Nat) : Bool :=
  match rollingMedian ys i, rollingMad ys i with
  | some med, some mad => decide (|ys.getD i 0 - med| ≤ 3 * (mad + epsilonClean))
  | _, _ => false

/-- Embedding of clean_data on the parsed rows (angle, intensity) of the
raw file: the angle filter df[df[0] > 10] first, then the rolling median /
MAD outlier filter; the final column selection and the header-free
tab-separated write keep exactly these rows in this order. -/
def clean_data (rows : List (ℚ × ℚ)) : List (ℚ × ℚ) :=
  let kept := rows.filter (fun r => 10 < r.1)
  let ys := kept.map Prod.snd
  (kept.enum.filter (fun p => keepRow ys p.1)).map Prod.snd

/-! ### Sample-number extraction and the driver control flow
(main.py lines 130-141 and 178-208, src/data_cleaner.py lines 29-33) -/

/-- One anchored attempt of re.search(r'Sample(\d+)', base, re.IGNORECASE):
an ASCII case-insensitive match of the literal "sample" followed by a
greedy nonempty run of digits, returning the captured digits. -/
def sampleNumAt (cs : List Char) : Option String :=
  match cs with
  | c1 :: c2 :: c3 :: c4 :: c5 :: c6 :: rest =>
    if String.mk ([c1, c2, c3, c4, c5, c6].map Char.toLower) = "sample" then
      match rest.takeWhile Char.isDigit with
      | [] => none
      | ds => some (String.mk ds)
    else none
  | _ => none

/-- re.search scans left to right and returns the first position where the
pattern matches. -/
def searchSampleNum : List Char → Option String
  | [] => none
  | c :: cs =>
    match sampleNumAt (c :: cs) with
    | some ds => some ds
    | none => searchSampleNum cs

/-- os.path.basename: the part of the path behind the last slash. -/
def basename (s : String) : String :=
  String.mk ((s.toList.reverse.takeWhile (fun c => c ≠ '/')).reverse)

/-- The output name chosen by clean_data (src/data_cleaner.py lines
29-33): the sample number captured from the raw file name, or the generic
"unknown" when there is no match - the fallback never raises. -/
def filtered_filename (rawBase : String) : String :=
  "filtered_sample" ++ ((searchSampleNum rawBase.toList).getD "unknown") ++ ".xy"

/-- Outcome of one run of main, as far as the sample-number control flow
decides it. -/
inductive RunOutcome where
  | completed (datafileUsed : String)
  | nameErrorAtPlot
  deriving DecidableEq

/-- Embedding of the control flow of main around the sample number.  Under
--clean the number is extracted from the basename of the data file; on a
match the analysis proceeds on the corresponding filtered file, otherwise
only a warning is printed and the raw file is used.  The numeric pipeline
(load, detect, regress, select, report) is abstracted as completing on
well-formed data; the first plot then formats sample_num into its title
(main.py line 186), and that name was only ever assigned inside the match
branch of the --clean block, so the f-string raises NameError whenever
--clean was absent or the filename had no recognizable sample number. -/
def main_driver (datafile : String) (clean : Bool) : RunOutcome :=
  let sampleNum : Option String :=
    if clean then searchSampleNum (basename datafile).toList else none
  match sampleNum with
  | some n => RunOutcome.completed ("filtered_sample" ++ n ++ ".xy")
  | none => RunOutcome.nameErrorAtPlot

/-! ### Helper lemmas -/

/-- The sequences a FitCore carries are the truncated Q column and the
truncated sin-squared column. -/
theorem perform_regression_core_fields (s : List ℚ) (refl : List (Int × String)) (c : FitCore)
    (h : perform_regression_core s refl = some c) :
    c.qUsed = (refl.map Prod.fst).take (min refl.length s.length) ∧
    c.sin2Used = s.take (min refl.length s.length) := by
  unfold perform_regression_core at h
  split at h
  · exact absurd h (by simp)
  · next fit heq =>
    cases h
    constructor
    · simp [List.map_take]
    · rfl

/-- On a trace with fewer than three samples the candidate range 1 .. n-2
of the local-maximum scan is empty. -/
theorem local_maxima_1d_short (x : List ℚ) (h : x.length < 3) : local_maxima_1d x = [] := by
  unfold local_maxima_1d
  rw [localMaximaLoop]
  have h2 : ¬ (1 < x.length - 1) := by omega
  simp [h2]

/-- Concrete regression run on the increasing sin-squared values 1/100,
1/50 against the fcc table: the two pairs (3, 1/100), (4, 1/50) lie on one
line of slope 1/100, so the fit is exact. -/
theorem demo_core_eval : perform_regression_core [1/100, 1/50] fccReflections =
    some ⟨1/100, -1/50, 1, [3, 4], [1/100, 1/50]⟩ := by
  norm_num [perform_regression_core, linregress, mean, fccReflections]

/-- Concrete regression run on the decreasing sin-squared values 1/2, 1/4
against the fcc table: the two pairs (3, 1/2), (4, 1/4) give the negative
slope -1/4, and linregress completes. -/
theorem demo_core_neg : perform_regression_core [1/2, 1/4] fccReflections =
    some ⟨-1/4, 5/4, 1, [3, 4], [1/2, 1/4]⟩ := by
  norm_num [perform_regression_core, linregress, mean, fccReflections]

/-- The full perform_regression on the concrete increasing input, for any
wavelength. -/
theorem demo_regression (w : ℚ) :
    perform_regression [1/100, 1/50] fccReflections w =
      some ⟨1/100, -1/50, 1, lattice_constant w (1/100), [3, 4], [1/100, 1/50]⟩ := by
  unfold perform_regression
  rw [demo_core_eval]
  rfl

/-! ### Claim theorems -/

/-- Claim C1, counterexample: on the sin-squared sequence 1/2, 1/4 the
fitted slope is -1/4, which is nonpositive, and perform_regression does not
fail: it returns a RegressionResult whose lattice constant is computed from
that nonpositive slope.  This refutes the claim that the regression fails
with NonPhysicalFitError whenever the slope is at most 0. -/
theorem C1_counterexample :
    perform_regression_core [1/2, 1/4] fccReflections =
      some ⟨-1/4, 5/4, 1, [3, 4], [1/2, 1/4]⟩ ∧
    ((-1 : ℚ)/4 ≤ 0) ∧
    perform_regression [1/2, 1/4] fccReflections (7107/10000) =
      some ⟨-1/4, 5/4, 1, lattice_constant (7107/10000) (-1/4), [3, 4], [1/2, 1/4]⟩ := by
  refine ⟨demo_core_neg, by norm_num, ?_⟩
  unfold perform_regression
  rw [demo_core_neg]
  rfl

/-- Claim C1, amended: perform_regression contains no slope-sign guard.
Whenever the least-squares fit itself succeeds and yields a slope that is
at most 0, the function still returns the full RegressionResult, its
lattice-constant field computed from that nonpositive slope (NaN or inf in
the floating-point code); no NonPhysicalFitError exists in the program. -/
theorem C1_no_slope_guard (sin2_theta : List ℚ) (reflections : List (Int × String))
    (wavelength : ℚ) (c : FitCore)
    (hc : perform_regression_core sin2_theta reflections = some c)
    (_hs : c.slope ≤ 0) :
    perform_regression sin2_theta reflections wavelength =
      some ⟨c.slope, c.intercept, c.r_squared, lattice_constant wavelength c.slope,
        c.qUsed, c.sin2Used⟩ := by
  unfold perform_regression
  rw [hc]
  rfl

/-- Witness for C1_no_slope_guard at the concrete negative-slope input. -/
theorem C1_witness :
    ((-1 : ℚ)/4 ≤ 0) ∧
    perform_regression [1/2, 1/4] fccReflections 1 =
      some ⟨-1/4, 5/4, 1, lattice_constant 1 (-1/4), [3, 4], [1/2, 1/4]⟩ :=
  ⟨by norm_num, C1_no_slope_guard _ _ _ _ demo_core_neg (by norm_num)⟩

/-- Claim C2: over the fixed iteration order fcc, bcc the selector returns
the hypothesis with strictly greater r_squared, and on a tie it returns
fcc (first-seen-wins under the max-by-key scan of Python max). -/
theorem C2_selector_order (rFcc rBcc : ℚ) :
    (rFcc < rBcc → select_best_structure rFcc rBcc = some "bcc") ∧
    (rBcc < rFcc → select_best_structure rFcc rBcc = some "fcc") ∧
    (rFcc = rBcc → select_best_structure rFcc rBcc = some "fcc") := by
  refine ⟨fun h => ?_, fun h => ?_, fun h => ?_⟩
  · simp [select_best_structure, pymax, h]
  · simp [select_best_structure, pymax, not_lt_of_gt h]
  · subst h
    simp [select_best_structure, pymax]

/-- Witness for C2_selector_order on concrete r_squared pairs, one per
case. -/
theorem C2_witness :
    select_best_structure 1 2 = some "bcc" ∧
    select_best_structure 2 1 = some "fcc" ∧
    select_best_structure 1 1 = some "fcc" :=
  ⟨(C2_selector_order 1 2).1 (by norm_num), (C2_selector_order 2 1).2.1 (by norm_num),
   (C2_selector_order 1 1).2.2 rfl⟩

/-- Claim C3: whenever perform_regression returns a result, its qUsed and
sin2Used sequences both have length n = min(number of reflections, number
of peaks) and are the first n elements of the reflection Q column and of
the sin-squared sequence respectively. -/
theorem C3_truncation (sin2_theta : List ℚ) (reflections : List (Int × String))
    (wavelength : ℚ) (res : RegressionResult)
    (h : perform_regression sin2_theta reflections wavelength = some res) :
    res.qUsed.length = min reflections.length sin2_theta.length ∧
    res.sin2Used.length = min reflections.length sin2_theta.length ∧
    res.qUsed = (reflections.map Prod.fst).take (min reflections.length sin2_theta.length) ∧
    res.sin2Used = sin2_theta.take (min reflections.length sin2_theta.length) := by
  unfold perform_regression at h
  cases hc : perform_regression_core sin2_theta reflections with
  | none => rw [hc] at h; exact absurd h (by simp)
  | some c =>
    rw [hc] at h
    simp only [Option.map_some'] at h
    obtain ⟨hq, hs2⟩ := perform_regression_core_fields _ _ _ hc
    cases h
    refine ⟨?_, ?_, hq, hs2⟩
    · rw [show (⟨c.slope, c.intercept, c.r_squared, lattice_constant wavelength c.slope,
        c.qUsed, c.sin2Used⟩ : RegressionResult).qUsed = c.qUsed from rfl, hq]
      simp [List.length_take]
    · rw [show (⟨c.slope, c.intercept, c.r_squared, lattice_constant wavelength c.slope,
        c.qUsed, c.sin2Used⟩ : RegressionResult).sin2Used = c.sin2Used from rfl, hs2]
      simp [List.length_take]

/-- Witness for C3_truncation on the concrete two-peak run against the
five fcc reflections: n = min 5 2 = 2. -/
theorem C3_witness :
    (⟨1/100, -1/50, 1, lattice_constant (7107/10000) (1/100), [3, 4], [1/100, 1/50]⟩ :
        RegressionResult).qUsed.length =
      min fccReflections.length ([1/100, 1/50] : List ℚ).length ∧
    (⟨1/100, -1/50, 1, lattice_constant (7107/10000) (1/100), [3, 4], [1/100, 1/50]⟩ :
        RegressionResult).sin2Used.length =
      min fccReflections.length ([1/100, 1/50] : List ℚ).length ∧
    (⟨1/100, -1/50, 1, lattice_constant (7107/10000) (1/100), [3, 4], [1/100, 1/50]⟩ :
        RegressionResult).qUsed =
      (fccReflections.map Prod.fst).take
        (min fccReflections.length ([1/100, 1/50] : List ℚ).length) ∧
    (⟨1/100, -1/50, 1, lattice_constant (7107/10000) (1/100), [3, 4], [1/100, 1/50]⟩ :
        RegressionResult).sin2Used =
      ([1/100, 1/50] : List ℚ).take
        (min fccReflections.length ([1/100, 1/50] : List ℚ).length) :=
  C3_truncation [1/100, 1/50] fccReflections (7107/10000) _ (demo_regression (7107/10000))

/-- Claim C4: the reflection table has exactly the five fcc entries with
Q = 3, 4, 8, 11, 12 and the five bcc entries with Q = 2, 4, 6, 8, 10, with
their Miller labels in order, and every structure name that lowercases to
neither fcc nor bcc raises ValueError. -/
theorem C4_reflection_table :
    get_allowed_reflections "fcc" = some fccReflections ∧
    get_allowed_reflections "bcc" = some bccReflections ∧
    fccReflections.length = 5 ∧ bccReflections.length = 5 ∧
    fccReflections.map Prod.fst = [3, 4, 8, 11, 12] ∧
    fccReflections.map Prod.snd = ["(111)", "(200)", "(220)", "(311)", "(222)"] ∧
    bccReflections.map Prod.fst = [2, 4, 6, 8, 10] ∧
    bccReflections.map Prod.snd = ["(110)", "(200)", "(211)", "(220)", "(310)"] ∧
    ∀ s : String, pyLower s ≠ "fcc" → pyLower s ≠ "bcc" →
      get_allowed_reflections s = none := by
  refine ⟨by decide, by decide, by decide, by decide, by decide, by decide, by decide,
    by decide, ?_⟩
  intro s h1 h2
  unfold get_allowed_reflections
  simp [h1, h2]

/-- Witness for C4_reflection_table at the foreign structure name hcp. -/
theorem C4_witness :
    get_allowed_reflections "hcp" = none ∧ pyLower "hcp" ≠ "fcc" ∧ pyLower "hcp" ≠ "bcc" :=
  ⟨C4_reflection_table.2.2.2.2.2.2.2.2 "hcp" (by decide) (by decide), by decide, by decide⟩

/-- Claim C5, counterexample: on the empty scan the detector does not
return an empty peak list - it fails, because np.max of an empty array
raises ValueError before find_peaks is reached.  This refutes the claim for
the zero-sample case. -/
theorem C5_counterexample : detect_peaks [] [] (1/1000) 1 = none := rfl

/-- Claim C5, amended: on every nonempty scan with fewer than three
samples the detector succeeds and returns the empty peak sequence; only
the empty scan makes it fail in np.max. -/
theorem C5_small_scan (two_theta intensity : List ℚ) (height_frac prominenceMin : ℚ)
    (hne : intensity ≠ []) (h3 : intensity.length < 3) :
    detect_peaks two_theta intensity height_frac prominenceMin = some ([], []) := by
  obtain ⟨v, vs, rfl⟩ := List.exists_cons_of_ne_nil hne
  simp [detect_peaks, npMax, find_peaks, local_maxima_1d_short _ h3]

/-- Witness for C5_small_scan on a one-sample scan with the default
height fraction and prominence of detect_peaks. -/
theorem C5_witness :
    (([(10 : ℚ)] : List ℚ) ≠ []) ∧ (([(10 : ℚ)] : List ℚ).length < 3) ∧
    detect_peaks [20] [10] (1/1000) 1 = some ([], []) :=
  ⟨by simp, by norm_num, C5_small_scan [20] [10] (1/1000) 1 (by simp) (by norm_num)⟩

/-- Claim C6: the code contradicts the claimed non-fatal fallback.  The
cleaner itself does fall back to the generic name (first two conjuncts),
but main only binds sample_num inside the match branch of the --clean
block, so the plot-title f-string of line 186 raises NameError - the run
aborts - whenever the filename has no recognizable sample number under
--clean, and even on the documented no---clean usage; a run only completes
when --clean is given and the filename matches. -/
theorem C6_sample_number_name_error :
    filtered_filename "data.txt" = "filtered_sampleunknown.xy" ∧
    searchSampleNum ("data.txt").toList = none ∧
    main_driver "data.txt" true = RunOutcome.nameErrorAtPlot ∧
    main_driver "samples/filtered_sample1.xy" false = RunOutcome.nameErrorAtPlot ∧
    main_driver "samples/Sample1.txt" true = RunOutcome.completed "filtered_sample1.xy" := by
  refine ⟨by decide, by decide, by decide, by decide, by decide⟩

/-- Claim C7, counterexample: five rows with angles 11 .. 15 and the
constant intensity 100.  Every row passes the angle test and no intensity
deviates from any window median at all (the fourth conjunct shows the
deviation criterion at its own threshold), yet only the middle row
survives: the first two and last two rows are dropped because their
centered window is incomplete and the NaN comparison is False.  This
refutes the claim that exactly the two stated criteria decide
discarding. -/
theorem C7_counterexample :
    clean_data [(11, 100), (12, 100), (13, 100), (14, 100), (15, 100)] = [(13, 100)] ∧
    ((11 : ℚ), (100 : ℚ)) ∉
      clean_data [(11, 100), (12, 100), (13, 100), (14, 100), (15, 100)] ∧
    ((10 : ℚ) < 11) ∧ (|(100 : ℚ) - 100| ≤ 3 * (0 + epsilonClean)) := by
  have he : clean_data [(11, 100), (12, 100), (13, 100), (14, 100), (15, 100)] =
      [(13, 100)] := by
    norm_num [clean_data, keepRow, rollingMedian, rollingMad, window5, median5,
      sortRat, insertSorted, epsilonClean, List.enum, List.enumFrom]
  refine ⟨he, ?_, by norm_num, by norm_num [epsilonClean]⟩
  rw [he]
  norm_num

/-- Claim C7, amended: the cleaner keeps a subsequence of the
angle-filtered rows in original order, every surviving row has angle
above 10, a row whose centered five-row window is incomplete (the first
two and last two positions of the angle-filtered frame, hence every row
when fewer than five remain) is always dropped, and on complete windows
exactly the rolling median / MAD deviation test decides. -/
theorem C7_cleaning_rule (rows : List (ℚ × ℚ)) :
    (clean_data rows).Sublist (rows.filter (fun r => 10 < r.1)) ∧
    (∀ r ∈ clean_data rows, 10 < r.1) ∧
    (∀ i : Nat, (i < 2 ∨ (rows.filter (fun r => 10 < r.1)).length ≤ i + 2) →
      keepRow ((rows.filter (fun r => 10 < r.1)).map Prod.snd) i = false) ∧
    clean_data rows =
      ((rows.filter (fun r => 10 < r.1)).enum.filter
        (fun p => keepRow ((rows.filter (fun r => 10 < r.1)).map Prod.snd) p.1)).map
        Prod.snd := by
  have hsub : (clean_data rows).Sublist (rows.filter (fun r => 10 < r.1)) := by
    unfold clean_data
    have h1 : ((rows.filter (fun r => 10 < r.1)).enum.filter
        (fun p => keepRow ((rows.filter (fun r => 10 < r.1)).map Prod.snd) p.1)).Sublist
        ((rows.filter (fun r => 10 < r.1)).enum) := List.filter_sublist _
    have h2 := h1.map Prod.snd
    rw [List.enum_map_snd] at h2
    exact h2
  refine ⟨hsub, ?_, ?_, rfl⟩
  · intro r hr
    have hm := hsub.subset hr
    simpa using (List.mem_filter.mp hm).2
  · intro i hi
    unfold keepRow rollingMedian rollingMad window5
    have hw : ¬ (2 ≤ i ∧ i + 2 < (rows.filter (fun r => 10 < r.1)).length) := by omega
    simp [hw]

/-- Witness for C7_cleaning_rule on the concrete five constant-intensity
rows: position 0 of the angle-filtered frame is dropped by the boundary
rule, and the surviving row (13, 100) indeed has angle above 10. -/
theorem C7_witness :
    keepRow ((([(11, 100), (12, 100), (13, 100), (14, 100), (15, 100)] :
      List (ℚ × ℚ)).filter (fun r => 10 < r.1)).map Prod.snd) 0 = false ∧
    (10 : ℚ) < (13, (100 : ℚ)).1 :=
  ⟨(C7_cleaning_rule [(11, 100), (12, 100), (13, 100), (14, 100), (15, 100)]).2.2.1 0
      (Or.inl (by norm_num)),
   (C7_cleaning_rule [(11, 100), (12, 100), (13, 100), (14, 100), (15, 100)]).2.1
      (13, 100) (by
        norm_num [clean_data, keepRow, rollingMedian, rollingMad, window5, median5,
          sortRat, insertSorted, epsilonClean, List.enum, List.enumFrom])⟩

/-- Claim C8: the cleaned output is a subsequence of the parsed input
rows - so, reloaded, it is again a list of numeric two-column rows - and
its row count never exceeds the original row count. -/
theorem C8_clean_roundtrip (rows : List (ℚ × ℚ)) :
    (clean_data rows).Sublist rows ∧ (clean_data rows).length ≤ rows.length := by
  have hsub : (clean_data rows).Sublist rows := by
    unfold clean_data
    have h1 : ((rows.filter (fun r => 10 < r.1)).enum.filter
        (fun p => keepRow ((rows.filter (fun r => 10 < r.1)).map Prod.snd) p.1)).Sublist
        ((rows.filter (fun r => 10 < r.1)).enum) := List.filter_sublist _
    have h2 := h1.map Prod.snd
    rw [List.enum_map_snd] at h2
    exact h2.trans (List.filter_sublist rows)
  exact ⟨hsub, hsub.length_le⟩

/-- Claim C9: the reflection lookup is case-insensitive - every string
that lowercases to fcc (or bcc) yields exactly the table of the lowercase
name, and only strings whose lowercase form is neither raise. -/
theorem C9_case_insensitive (s : String) :
    (pyLower s = "fcc" → get_allowed_reflections s = some fccReflections ∧
      get_allowed_reflections s = get_allowed_reflections "fcc") ∧
    (pyLower s = "bcc" → get_allowed_reflections s = some bccReflections ∧
      get_allowed_reflections s = get_allowed_reflections "bcc") ∧
    (pyLower s ≠ "fcc" → pyLower s ≠ "bcc" → get_allowed_reflections s = none) := by
  refine ⟨fun h => ?_, fun h => ?_, fun h1 h2 => ?_⟩
  · have he : get_allowed_reflections s = some fccReflections := by
      unfold get_allowed_reflections
      simp [h]
    exact ⟨he, by rw [he]; decide⟩
  · have he : get_allowed_reflections s = some bccReflections := by
      unfold get_allowed_reflections
      simp [h]
    exact ⟨he, by rw [he]; decide⟩
  · unfold get_allowed_reflections
    simp [h1, h2]

/-- Witness for C9_case_insensitive at the mixed-case names FCC and Bcc
and the foreign name xyz. -/
theorem C9_witness :
    get_allowed_reflections "FCC" = some fccReflections ∧
    get_allowed_reflections "FCC" = get_allowed_reflections "fcc" ∧
    get_allowed_reflections "Bcc" = some bccReflections ∧
    get_allowed_reflections "xyz" = none :=
  ⟨((C9_case_insensitive "FCC").1 (by decide)).1,
   ((C9_case_insensitive "FCC").1 (by decide)).2,
   ((C9_case_insensitive "Bcc").2.1 (by decide)).1,
   (C9_case_insensitive "xyz").2.2 (by decide) (by decide)⟩

/-- Claim C10: for a fixed peak list and hypothesis the slope, intercept,
r_squared, qUsed and sin2Used of the regression do not depend on the
wavelength; the lattice constant equals wavelength / (2 * sqrt(slope)) and
is therefore linear in the wavelength: scaling the wavelength by any
positive factor scales the lattice constant by the same factor. -/
theorem C10_wavelength_role (sin2_theta : List ℚ) (reflections : List (Int × String))
    (w1 w2 : ℚ) (r1 r2 : RegressionResult)
    (h1 : perform_regression sin2_theta reflections w1 = some r1)
    (h2 : perform_regression sin2_theta reflections w2 = some r2) :
    r1.slope = r2.slope ∧ r1.intercept = r2.intercept ∧
    r1.r_squared = r2.r_squared ∧ r1.qUsed = r2.qUsed ∧ r1.sin2Used = r2.sin2Used ∧
    r1.a = (w1 : Real) / (2 * Real.sqrt (r1.slope : Real)) ∧
    (∀ c : ℚ, 0 < c → ∀ rc : RegressionResult,
      perform_regression sin2_theta reflections (c * w1) = some rc →
      rc.a = (c : Real) * r1.a) := by
  unfold perform_regression at h1 h2
  cases hc : perform_regression_core sin2_theta reflections with
  | none => rw [hc] at h1; exact absurd h1 (by simp)
  | some c0 =>
    rw [hc] at h1 h2
    simp only [Option.map_some'] at h1 h2
    cases h1
    cases h2
    refine ⟨rfl, rfl, rfl, rfl, rfl, rfl, ?_⟩
    intro c hcpos rc hrc
    unfold perform_regression at hrc
    rw [hc] at hrc
    simp only [Option.map_some'] at hrc
    cases hrc
    show lattice_constant (c * w1) c0.slope = (c : Real) * lattice_constant w1 c0.slope
    unfold lattice_constant
    push_cast
    ring

/-- Witness for C10_wavelength_role on the concrete two-peak run at the
wavelengths 7107/10000 and 1 and the scaling factor 2. -/
theorem C10_witness :
    ((0 : ℚ) < 2) ∧
    lattice_constant (2 * (7107/10000)) (1/100) =
      ((2 : ℚ) : Real) * lattice_constant (7107/10000) (1/100) :=
  ⟨by norm_num,
   (C10_wavelength_role [1/100, 1/50] fccReflections (7107/10000) 1 _ _
      (demo_regression (7107/10000)) (demo_regression 1)).2.2.2.2.2.2 2 (by norm_num) _
      (demo_regression (2 * (7107/10000)))⟩

end PXRD
